import Mathlib

/-!
# Content-generation orchestration pipeline: formal model

A shallow embedding of the content-generation pipeline of the
contemplation-flow-web repository, together with theorems settling the
claims of the specification against it.

The repository ships the frontend (its wire types in
src/unnamed/part_001, the API client, and ContemplationModal.tsx) and
design documents for the backend pipeline (src/unnamed/part_003,
VIDEO_GENERATION_ANALYSIS.md).  The backend orchestrator, cache and
stage runners themselves are not in the tree, so those parts are
modelled from the spec; every such definition carries a doc comment
starting with "Modelled from the spec:".  Everything taken from actual
source files is transcribed from them and cited.
-/

namespace ContentGen

/-- Wire type (src/unnamed/part_001, ContentGenerationRequest /
ContentGeneration): mode is one of the literals audio, video, image. -/
inductive Mode
  | audio
  | video
  | image
deriving DecidableEq, Repr

/-- Wire status union (src/unnamed/part_001, lines 41 and 46): the status
of a ContentGenerationResponse and of a ContentGeneration is one of
processing, complete, failed.  There is no pending member. -/
inductive WireStatus
  | processing
  | complete
  | failed
deriving DecidableEq, Repr

/-- The literal strings of the status union of ContentGenerationResponse
(src/unnamed/part_001, line 41). -/
def ContentGenerationResponse.statusStrings : List String :=
  ["processing", "complete", "failed"]

/-- The string each wire status serialises to. -/
def WireStatus.toString : WireStatus → String
  | .processing => "processing"
  | .complete => "complete"
  | .failed => "failed"

/-- Wire type ContentGenerationRequest (src/unnamed/part_001, lines 33-37). -/
structure ContentGenerationRequest where
  conversation_id : String
  message_id : String
  mode : Mode
deriving DecidableEq, Repr

/-- Wire type ContentGenerationResponse (src/unnamed/part_001, lines 39-42). -/
structure ContentGenerationResponse where
  id : String
  status : WireStatus
deriving DecidableEq, Repr

/-- The field names of the wire interface ContentGeneration
(src/unnamed/part_001, lines 44-53), in source order.  Note the absence
of any error field. -/
def ContentGeneration.fieldNames : List String :=
  ["id", "status", "conversation_id", "message_id", "content_type",
   "created_at", "content_url", "transcript"]

/-- Wire type ContentGeneration (src/unnamed/part_001, lines 44-53).
content_url and transcript are nullable; there is no error field. -/
structure ContentGeneration where
  id : String
  status : WireStatus
  conversation_id : String
  message_id : String
  content_type : Mode
  created_at : String
  content_url : Option String
  transcript : Option String
deriving DecidableEq, Repr

/-- JavaScript truthiness of a string-or-null value: null and the empty
string are falsy, every other string is truthy. -/
def truthy : Option String → Bool
  | none => false
  | some s => !(s == "")

end ContentGen

namespace Modal

open ContentGen

/-- ContemplationModal.tsx line 206-208: the filter selecting which
existing content generations are rendered as viewable cards. -/
def completedCards (existing : List ContentGeneration) : List ContentGeneration :=
  existing.filter fun cg =>
    cg.content_type == Mode.image && cg.status == WireStatus.complete
      && truthy cg.content_url

/-- ContemplationModal.tsx lines 188-193 (handleViewCard): the guard under
which clicking a card switches to full screen. -/
def handleViewCardOpens (cg : ContentGeneration) : Bool :=
  cg.status == WireStatus.complete && truthy cg.content_url

/-- ContemplationModal.tsx lines 253-271: the click handler calling
handleViewCard is attached only to the elements produced by mapping over
completedCards, so a generation opens full screen exactly when it is in
completedCards and passes the handleViewCard guard. -/
def cardOpensFullScreen (existing : List ContentGeneration)
    (cg : ContentGeneration) : Bool :=
  decide (cg ∈ completedCards existing) && handleViewCardOpens cg

/-- State of the useContentPolling hook (ContemplationModal.tsx lines
19-22): observed status, content url, error message. -/
structure PollState where
  status : Option WireStatus
  contentUrl : Option String
  error : Option String
deriving DecidableEq, Repr

/-- ContemplationModal.tsx lines 24-42 (pollContent): store the fetched
status; when complete, store the record content_url (the wire record
always has the content_url field, so the in-check passes); when failed,
store the fixed message "Content generation failed". -/
def pollContentUpdate (st : PollState) (content : ContentGeneration) : PollState :=
  let st1 := { st with status := some content.status }
  if content.status == WireStatus.complete then
    { st1 with contentUrl := content.content_url }
  else if content.status == WireStatus.failed then
    { st1 with error := some "Content generation failed" }
  else st1

/-- State of the ContemplationModal component relevant to polling
(ContemplationModal.tsx lines 70-78). -/
structure ModalState where
  fullScreen : Bool
  contentId : Option String
  poll : PollState
deriving DecidableEq, Repr

/-- ContemplationModal.tsx line 77: polling is enabled iff a contentId is
set and the modal is not in full-screen mode.  The observed status does
not enter the condition. -/
def shouldPoll (st : ModalState) : Bool :=
  st.contentId.isSome && !st.fullScreen

/-- ContemplationModal.tsx line 53: the polling interval, in
milliseconds. -/
def pollIntervalMs : Nat := 2000

/-- ContemplationModal.tsx lines 59-64: the effect commented "Stop
polling when complete or failed" has an empty body, so it leaves the
component state unchanged. -/
def stopPollingEffect (st : ModalState) : ModalState := st

/-- ContemplationModal.tsx lines 92-105: once the observed status is
complete and a truthy content url was stored, clear contentId (and the
rest of the generation state). -/
def completeEffect (st : ModalState) : ModalState :=
  if st.poll.status == some WireStatus.complete && truthy st.poll.contentUrl then
    { st with contentId := none,
              poll := { st.poll with contentUrl := st.poll.contentUrl, error := none } }
  else st

/-- One polling tick: pollContent updates the hook state, then the
effects of the component run. -/
def pollTick (st : ModalState) (content : ContentGeneration) : ModalState :=
  completeEffect (stopPollingEffect { st with poll := pollContentUpdate st.poll content })

end Modal

namespace Pipeline

open ContentGen

/-- CACHE_TTL = 3600 seconds, one hour (src/unnamed/part_003,
configuration settings, line 104). -/
def CACHE_TTL : Nat := 3600

/-- A ContentCache entry: value plus absolute expiry time (spec section 3,
CacheEntry). -/
structure CacheEntry where
  value : String
  expires_at : Nat
deriving DecidableEq, Repr

/-- Modelled from the spec: the ContentCache store (section 4.1); the
backend cache implementation (the module-level dictionaries of
src/unnamed/part_003) is absent from src.  An association list from
fingerprint keys to entries. -/
structure ContentCache where
  entries : List (String × CacheEntry)
deriving DecidableEq, Repr

/-- The entry currently stored under a key, expired or not. -/
def ContentCache.find (c : ContentCache) (k : String) : Option CacheEntry :=
  c.entries.lookup k

/-- Modelled from the spec: ContentCache.get (section 4.1) — an entry
past its expires_at is treated as absent; the read returns the cache
unchanged (lazy expiry: an expired read does not delete). -/
def ContentCache.get (c : ContentCache) (k : String) (now : Nat) :
    Option String × ContentCache :=
  match c.entries.lookup k with
  | none => (none, c)
  | some e => (if now < e.expires_at then some e.value else none, c)

/-- Modelled from the spec: ContentCache.put (section 4.1) — store the
value under the key with expiry now + CACHE_TTL. -/
def ContentCache.put (c : ContentCache) (k v : String) (now : Nat) : ContentCache :=
  ⟨(k, ⟨v, now + CACHE_TTL⟩) :: c.entries⟩

/-- Modelled from the spec: the fingerprint of the TranscriptGenerator
cache key (section 4.2) — a deterministic function of the source text
and the target length (the cache_key of src/unnamed/part_003 line 36). -/
def fingerprint (sourceText : String) (targetLength : Nat) : String :=
  sourceText ++ "#" ++ Nat.repr targetLength

/-- The mutable environment threaded through a TranscriptGenerator call:
the shared cache and a counter of external text-generation calls. -/
structure GenEnv where
  cache : ContentCache
  textCalls : Nat
deriving DecidableEq, Repr

/-- Modelled from the spec: the TranscriptGenerator stage (section 4.2;
the cache-hit snippet of src/unnamed/part_003 lines 35-39); the backend
implementation is absent from src.  Consult the cache under
fingerprint(source text, target length); on a hit return the cached text
with zero external calls; on a miss perform one external call (llm) and
store the result before returning. -/
def generateTranscript (env : GenEnv) (sourceText : String) (targetLength : Nat)
    (llm : String → String) (now : Nat) : String × GenEnv :=
  let key := fingerprint sourceText targetLength
  match (env.cache.get key now).1 with
  | some t => (t, env)
  | none =>
    let t := llm sourceText
    (t, { cache := env.cache.put key t now, textCalls := env.textCalls + 1 })

/-- The five external stages plus the source fetch (spec section 4.6
schedule). -/
inductive StageName
  | fetchSource
  | transcript
  | image
  | speech
  | encode
  | upload
deriving DecidableEq, Repr

/-- Outcome of one external call: success with a value, or a provider
failure with a message (timeouts included — a timed-out call surfaces as
a stage failure, spec section 4.2). -/
inductive StageResult
  | ok (v : String)
  | err (msg : String)
deriving DecidableEq, Repr

/-- Observable scheduling events of one orchestrator run. -/
inductive Event
  | start (s : StageName)
  | finish (s : StageName)
  | fail (s : StageName)
deriving DecidableEq, Repr

/-- Terminal outcome of one run: complete with a content url, or failed
with a reason. -/
inductive RunOutcome
  | complete (content_url : String)
  | failed (reason : String)
deriving DecidableEq, Repr

/-- The prescribed outcomes of the external calls a run may make,
supplied by the environment. -/
structure StageOutcomes where
  fetch : StageResult
  tgen : StageResult
  igen : StageResult
  sgen : StageResult
  enc : StageResult
  upl : StageResult
deriving DecidableEq, Repr

/-- Human-readable reason attached to a failed stage (spec section 7:
a non-sensitive, descriptive error string). -/
def failMsg : StageName → String → String
  | .fetchSource, m => "source fetch failed: " ++ m
  | .transcript, m => "transcript generation failed: " ++ m
  | .image, m => "image generation failed: " ++ m
  | .speech, m => "speech synthesis failed: " ++ m
  | .encode, m => "video encoding failed: " ++ m
  | .upload, m => "artifact upload failed: " ++ m

/-- The gather outcome events of the two parallel stages of step 2
(transcript then image, in result order). -/
def gatherEvents : StageResult → StageResult → List Event
  | .ok _, .ok _ => [.finish .transcript, .finish .image]
  | .ok _, .err _ => [.finish .transcript, .fail .image]
  | .err _, .ok _ => [.fail .transcript, .finish .image]
  | .err _, .err _ => [.fail .transcript, .fail .image]

/-- The upload step closing every successful path (spec section 4.6 steps
3, 5 and 6). -/
def uploadStep (evs : List Event) : StageResult → List Event × RunOutcome
  | .err m => (evs ++ [.start .upload, .fail .upload], .failed (failMsg .upload m))
  | .ok url => (evs ++ [.start .upload, .finish .upload], .complete url)

/-- Modelled from the spec: the GenerationOrchestrator schedule (section
4.6) and its parallel step 2 (the asyncio.gather of src/unnamed/part_003
lines 19-27); the backend orchestrator is absent from src.  Step 1
fetches source content; step 2 launches TranscriptGenerator and
ImageGenerator concurrently and waits for both; then, by mode: image
uploads the image; audio runs SpeechSynthesizer then uploads; video runs
SpeechSynthesizer, then MediaEncoder on the image and audio, then
uploads.  The first stage failure ends the run as failed with a
descriptive reason; no external call is retried. -/
def runPipeline (mode : Mode) (o : StageOutcomes) : List Event × RunOutcome :=
  match o.fetch with
  | .err m => ([.start .fetchSource, .fail .fetchSource], .failed (failMsg .fetchSource m))
  | .ok _ =>
    let pre : List Event :=
      [.start .fetchSource, .finish .fetchSource, .start .transcript, .start .image]
    let p2 := pre ++ gatherEvents o.tgen o.igen
    match o.tgen, o.igen with
    | .err m, _ => (p2, .failed (failMsg .transcript m))
    | .ok _, .err m => (p2, .failed (failMsg .image m))
    | .ok _, .ok _ =>
      match mode with
      | .image => uploadStep p2 o.upl
      | .audio =>
        match o.sgen with
        | .err m => (p2 ++ [.start .speech, .fail .speech], .failed (failMsg .speech m))
        | .ok _ => uploadStep (p2 ++ [.start .speech, .finish .speech]) o.upl
      | .video =>
        match o.sgen with
        | .err m => (p2 ++ [.start .speech, .fail .speech], .failed (failMsg .speech m))
        | .ok _ =>
          let p3 := p2 ++ [.start .speech, .finish .speech]
          match o.enc with
          | .err m => (p3 ++ [.start .encode, .fail .encode], .failed (failMsg .encode m))
          | .ok _ => uploadStep (p3 ++ [.start .encode, .finish .encode]) o.upl

/-- True iff every occurrence of b in the trace is strictly preceded by
an occurrence of a: scanning left to right, reaching b before any a
refutes it, and reaching a first settles it. -/
def occursBefore (a b : Event) : List Event → Bool
  | [] => true
  | x :: xs => if x == b then false else if x == a then true else occursBefore a b xs

end Pipeline

namespace Orchestrator

open ContentGen

/-- A generation request as it arrives over the wire, before validation:
the mode is still an arbitrary string. -/
structure RawRequest where
  conversation_id : String
  message_id : String
  mode : String
deriving DecidableEq, Repr

/-- The parse of the wire mode union of audio, video and image
(src/unnamed/part_001 line 36): any other string is unknown. -/
def parseMode (s : String) : Option Mode :=
  if s = "audio" then some Mode.audio
  else if s = "video" then some Mode.video
  else if s = "image" then some Mode.image
  else none

/-- Modelled from the spec: the StatusStore (section 2), the durable map
from generation id to GenerationRecord; the backend store is absent from
src.  Records use the wire shape ContentGeneration. -/
structure Store where
  records : List (String × ContentGeneration)
deriving DecidableEq, Repr

/-- StatusStore read by id (GetGeneration is this idempotent lookup). -/
def Store.getGeneration (st : Store) (genId : String) : Option ContentGeneration :=
  st.records.lookup genId

/-- Modelled from the spec: CreateGeneration (sections 6 and 7); the
backend handler is absent from src.  Malformed requests — unknown mode or
missing identifiers — are rejected synchronously and no record is
created.  A well-formed request creates the record before any stage
executes and returns its id at once; the initial status of the record is the
non-terminal member of the wire status union, processing
(src/unnamed/part_001 lines 41 and 46: the union has no pending). -/
def createGeneration (st : Store) (r : RawRequest) (newId createdAt : String) :
    Except String ContentGenerationResponse × Store :=
  match parseMode r.mode with
  | none => (.error "unknown mode", st)
  | some m =>
    if r.conversation_id = "" ∨ r.message_id = "" then
      (.error "missing identifiers", st)
    else
      let rec0 : ContentGeneration :=
        { id := newId, status := .processing,
          conversation_id := r.conversation_id, message_id := r.message_id,
          content_type := m, created_at := createdAt,
          content_url := none, transcript := none }
      (.ok { id := newId, status := .processing }, ⟨(newId, rec0) :: st.records⟩)

/-- Modelled from the spec: the GenerationRecord state machine (section
4.6) restricted to the wire status union — processing may move to
complete or failed; complete and failed are terminal. -/
def canTransition : WireStatus → WireStatus → Bool
  | .processing, .complete => true
  | .processing, .failed => true
  | _, _ => false

/-- Modelled from the spec: writing the terminal outcome of a run into the
record (section 4.6) — complete sets content_url; failed leaves it null
(the wire record has no error field to carry the reason; the reason
stays with the orchestrator). -/
def applyOutcome (rec : ContentGeneration) : Pipeline.RunOutcome → ContentGeneration
  | .complete url => { rec with status := .complete, content_url := some url }
  | .failed _ => { rec with status := .failed, content_url := none }

end Orchestrator

section Instances

open ContentGen

/-- A well-formed raw generation request. -/
def reqOk : Orchestrator.RawRequest := ⟨"c1", "m1", "image"⟩

/-- A malformed raw generation request: the mode string is unknown. -/
def badReq : Orchestrator.RawRequest := ⟨"c1", "m1", "gif"⟩

/-- An empty status store. -/
def store0 : Orchestrator.Store := ⟨[]⟩

/-- A cache holding one entry that expires at second 3600. -/
def cacheW : Pipeline.ContentCache := ⟨[("k", ⟨"v", 3600⟩)]⟩

/-- A fresh generation environment: empty cache, no external calls yet. -/
def envW : Pipeline.GenEnv := ⟨⟨[]⟩, 0⟩

/-- Stage outcomes of scenario B: every stage succeeds except
SpeechSynthesizer, which reports a provider error. -/
def outcomesB : Pipeline.StageOutcomes :=
  ⟨.ok "src", .ok "transcript", .ok "img", .err "provider error", .ok "vid", .ok "url"⟩

/-- A completed image generation with a content url. -/
def cardW : ContentGeneration :=
  ⟨"g10", .complete, "c1", "m1", .image, "t0", some "https://x/img.png", none⟩

/-- A generation record in terminal status failed. -/
def recFailed : ContentGeneration :=
  ⟨"g1", .failed, "c1", "m1", .image, "t0", none, none⟩

/-- A generation record in terminal status complete with a content url. -/
def recComplete : ContentGeneration :=
  ⟨"g1", .complete, "c1", "m1", .image, "t0", some "https://x/img.png", none⟩

/-- The modal state while a generation with id g1 is being polled. -/
def stPolling : Modal.ModalState := ⟨false, some "g1", ⟨none, none, none⟩⟩

end Instances

section Helpers

/-- Appending to a nonempty string never yields the empty string. -/
theorem ne_empty_of_append (p m : String) (hp : p.length ≠ 0) : p ++ m ≠ "" := by
  intro h
  have h2 := congrArg String.length h
  rw [String.length_append] at h2
  simp [String.length_empty, Nat.add_eq_zero] at h2
  exact hp h2.1

/-- Every stage-failure reason is a nonempty, descriptive string. -/
theorem failMsg_ne_empty (s : Pipeline.StageName) (m : String) :
    Pipeline.failMsg s m ≠ "" := by
  cases s <;> simp only [Pipeline.failMsg] <;> exact ne_empty_of_append _ m (by decide)

/-- A cache read never modifies the cache. -/
theorem get_preserves (c : Pipeline.ContentCache) (k : String) (now : Nat) :
    (c.get k now).2 = c := by
  unfold Pipeline.ContentCache.get
  cases c.entries.lookup k <;> rfl

/-- Reading a key whose entry is present reduces to the expiry test. -/
theorem get_found (c : Pipeline.ContentCache) (k : String) (e : Pipeline.CacheEntry)
    (now : Nat) (h : c.entries.lookup k = some e) :
    c.get k now = (if now < e.expires_at then some e.value else none, c) := by
  unfold Pipeline.ContentCache.get
  rw [h]

/-- A put stores the value under the key with expiry now + CACHE_TTL. -/
theorem lookup_put (c : Pipeline.ContentCache) (k v : String) (t : Nat) :
    (c.put k v t).entries.lookup k = some ⟨v, t + Pipeline.CACHE_TTL⟩ := by
  simp [Pipeline.ContentCache.put, List.lookup]

/-- In a video run whose SpeechSynthesizer fails, the run ends failed with
a nonempty reason and the upload stage never starts. -/
theorem video_speech_fail_aux (o : Pipeline.StageOutcomes) (m : String)
    (h : o.sgen = .err m) :
    (∃ r, (Pipeline.runPipeline .video o).2 = .failed r ∧ r ≠ "") ∧
    Pipeline.Event.start .upload ∉ (Pipeline.runPipeline .video o).1 := by
  obtain ⟨f, t, i, sp, e, u⟩ := o
  have h2 : sp = Pipeline.StageResult.err m := h
  subst h2
  cases f <;> cases t <;> cases i <;> cases e <;> cases u <;>
    exact ⟨⟨_, rfl, failMsg_ne_empty _ _⟩,
      by simp [Pipeline.runPipeline, Pipeline.gatherEvents, Pipeline.uploadStep]⟩

/-- A run whose trace records a stage failure ends failed with a nonempty
reason. -/
theorem fail_event_failed_aux (mode : ContentGen.Mode) (o : Pipeline.StageOutcomes)
    (s : Pipeline.StageName)
    (h : Pipeline.Event.fail s ∈ (Pipeline.runPipeline mode o).1) :
    ∃ r, (Pipeline.runPipeline mode o).2 = .failed r ∧ r ≠ "" := by
  obtain ⟨f, t, i, sp, e, u⟩ := o
  cases mode <;> cases f <;> cases t <;> cases i <;> cases sp <;> cases e <;> cases u <;>
    first
      | exact ⟨_, rfl, failMsg_ne_empty _ _⟩
      | exact absurd h
          (by simp [Pipeline.runPipeline, Pipeline.gatherEvents, Pipeline.uploadStep])

set_option maxHeartbeats 800000 in
/-- No external stage is started twice within one run. -/
theorem start_count_aux (mode : ContentGen.Mode) (o : Pipeline.StageOutcomes)
    (s : Pipeline.StageName) :
    ((Pipeline.runPipeline mode o).1).count (Pipeline.Event.start s) ≤ 1 := by
  obtain ⟨f, t, i, sp, e, u⟩ := o
  cases mode <;> cases f <;> cases t <;> cases i <;> cases sp <;> cases e <;> cases u <;>
    simp only [Pipeline.runPipeline, Pipeline.gatherEvents, Pipeline.uploadStep,
      List.cons_append, List.nil_append] <;>
    cases s <;> decide

end Helpers

/-- Claim C1, counterexample: the claim states that CreateGeneration
returns status "pending", but "pending" is not a member of the status
union of the wire type ContentGenerationResponse
(src/unnamed/part_001 line 41). -/
theorem claim_C1_counterexample :
    ¬ ("pending" ∈ ContentGen.ContentGenerationResponse.statusStrings) := by
  decide

/-- Claim C1, amended: for every well-formed generation request,
CreateGeneration returns immediately with the id of the new record and a
non-terminal status — which per the wire status union is processing, not
pending — the record having been created in that status, with no content
url, before any stage executes. -/
theorem claim_C1 (st : Orchestrator.Store) (r : Orchestrator.RawRequest)
    (newId createdAt : String) (m : ContentGen.Mode)
    (hm : Orchestrator.parseMode r.mode = some m)
    (hc : r.conversation_id ≠ "") (hmsg : r.message_id ≠ "") :
    (Orchestrator.createGeneration st r newId createdAt).1 =
      .ok ⟨newId, .processing⟩ ∧
    ∃ rec,
      (Orchestrator.createGeneration st r newId createdAt).2.getGeneration newId
        = some rec ∧
      rec.status = .processing ∧ rec.content_url = none ∧
      rec.id = newId ∧ rec.content_type = m := by
  simp only [Orchestrator.createGeneration, hm]
  rw [if_neg (by simp [hc, hmsg])]
  refine ⟨rfl,
    ⟨{ id := newId, status := .processing,
       conversation_id := r.conversation_id, message_id := r.message_id,
       content_type := m, created_at := createdAt,
       content_url := none, transcript := none }, ?_, rfl, rfl, rfl, rfl⟩⟩
  simp [Orchestrator.Store.getGeneration, List.lookup]

/-- Claim C1, witness: the amended claim at a concrete well-formed
request against the empty store. -/
theorem claim_C1_witness :
    (Orchestrator.createGeneration store0 reqOk "g1" "t0").1 =
      .ok ⟨"g1", .processing⟩ ∧
    ∃ rec,
      (Orchestrator.createGeneration store0 reqOk "g1" "t0").2.getGeneration "g1"
        = some rec ∧
      rec.status = .processing ∧ rec.content_url = none ∧
      rec.id = "g1" ∧ rec.content_type = ContentGen.Mode.image :=
  claim_C1 store0 reqOk "g1" "t0" .image (by decide) (by decide) (by decide)

/-- Claim C2, counterexample: the claim requires error to be populated
exactly when a record is failed, but the wire record ContentGeneration
has no error field at all (src/unnamed/part_001 lines 44-53). -/
theorem claim_C2_counterexample :
    ¬ ("error" ∈ ContentGen.ContentGeneration.fieldNames) := by
  decide

/-- Claim C2, amended: once a record reaches complete or failed no
transition leaves it; a record written from a terminal run outcome is
terminal and carries a content url exactly when it is complete; and,
since the wire record has no error field, the polling client reports the
fixed message Content generation failed whenever the status is failed. -/
theorem claim_C2 :
    (∀ s : ContentGen.WireStatus,
        Orchestrator.canTransition .complete s = false ∧
        Orchestrator.canTransition .failed s = false) ∧
    (∀ (rec : ContentGen.ContentGeneration) (out : Pipeline.RunOutcome),
        ((Orchestrator.applyOutcome rec out).status = .complete ∨
          (Orchestrator.applyOutcome rec out).status = .failed) ∧
        ((Orchestrator.applyOutcome rec out).content_url.isSome ↔
          (Orchestrator.applyOutcome rec out).status = .complete)) ∧
    (∀ (ps : Modal.PollState) (rec : ContentGen.ContentGeneration),
        rec.status = .failed →
        (Modal.pollContentUpdate ps rec).error = some "Content generation failed") := by
  refine ⟨?_, ?_, ?_⟩
  · intro s; cases s <;> exact ⟨rfl, rfl⟩
  · intro rec out; cases out <;> simp [Orchestrator.applyOutcome]
  · intro ps rec h
    simp [Modal.pollContentUpdate, h]

/-- Claim C2, witness: the amended claim at a concrete failed record. -/
theorem claim_C2_witness :
    (Modal.pollContentUpdate ⟨none, none, none⟩ recFailed).error =
      some "Content generation failed" :=
  claim_C2.2.2 ⟨none, none, none⟩ recFailed rfl

/-- Claim C3: any stage failure ends the run as failed with a descriptive
nonempty reason; no external call is started twice within one run; and in
a video run whose SpeechSynthesizer fails, the record is failed and the
upload stage never starts. -/
theorem claim_C3 :
    (∀ (o : Pipeline.StageOutcomes) (m : String), o.sgen = .err m →
        (∃ r, (Pipeline.runPipeline .video o).2 = .failed r ∧ r ≠ "") ∧
        Pipeline.Event.start .upload ∉ (Pipeline.runPipeline .video o).1) ∧
    (∀ (mode : ContentGen.Mode) (o : Pipeline.StageOutcomes) (s : Pipeline.StageName),
        Pipeline.Event.fail s ∈ (Pipeline.runPipeline mode o).1 →
        ∃ r, (Pipeline.runPipeline mode o).2 = .failed r ∧ r ≠ "") ∧
    (∀ (mode : ContentGen.Mode) (o : Pipeline.StageOutcomes) (s : Pipeline.StageName),
        ((Pipeline.runPipeline mode o).1).count (Pipeline.Event.start s) ≤ 1) :=
  ⟨fun o m h => video_speech_fail_aux o m h,
   fun mode o s h => fail_event_failed_aux mode o s h,
   fun mode o s => start_count_aux mode o s⟩

/-- Claim C3, witness: scenario B — a video run with every stage
succeeding except SpeechSynthesizer ends failed with a nonempty reason
and never starts the upload stage. -/
theorem claim_C3_witness :
    (∃ r, (Pipeline.runPipeline .video outcomesB).2 = .failed r ∧ r ≠ "") ∧
    Pipeline.Event.start .upload ∉ (Pipeline.runPipeline .video outcomesB).1 :=
  claim_C3.1 outcomesB "provider error" rfl

set_option maxHeartbeats 800000 in
/-- Claim C4: within one run a stage output is consumed only after the
producing stage completed — SpeechSynthesizer starts only after the
transcript finished, MediaEncoder starts only after both the image and
the audio finished, and each upload starts only after its producing
stage finished. -/
theorem claim_C4 (mode : ContentGen.Mode) (o : Pipeline.StageOutcomes) :
    Pipeline.occursBefore (.finish .transcript) (.start .speech)
      (Pipeline.runPipeline mode o).1 = true ∧
    Pipeline.occursBefore (.finish .image) (.start .encode)
      (Pipeline.runPipeline mode o).1 = true ∧
    Pipeline.occursBefore (.finish .speech) (.start .encode)
      (Pipeline.runPipeline mode o).1 = true ∧
    Pipeline.occursBefore (.finish .image) (.start .upload)
      (Pipeline.runPipeline .image o).1 = true ∧
    Pipeline.occursBefore (.finish .speech) (.start .upload)
      (Pipeline.runPipeline .audio o).1 = true ∧
    Pipeline.occursBefore (.finish .encode) (.start .upload)
      (Pipeline.runPipeline .video o).1 = true := by
  obtain ⟨f, t, i, sp, e, u⟩ := o
  cases mode <;> cases f <;> cases t <;> cases i <;> cases sp <;> cases e <;> cases u <;>
    simp only [Pipeline.runPipeline, Pipeline.gatherEvents, Pipeline.uploadStep,
      List.cons_append, List.nil_append] <;>
    decide

/-- Claim C5: two TranscriptGenerator runs with byte-identical source
text and target length, the second issued within the TTL window opened by
the first, make no external text-generation call on the second run: the
external-call counter is unchanged and the cached transcript is
returned. -/
theorem claim_C5 (env : Pipeline.GenEnv) (s : String) (L : Nat)
    (llm : String → String) (t1 t2 : Nat)
    (h1 : t1 ≤ t2) (h2 : t2 < t1 + Pipeline.CACHE_TTL)
    (hmiss : (env.cache.get (Pipeline.fingerprint s L) t1).1 = none) :
    (Pipeline.generateTranscript
        (Pipeline.generateTranscript env s L llm t1).2 s L llm t2).2.textCalls =
      (Pipeline.generateTranscript env s L llm t1).2.textCalls ∧
    (Pipeline.generateTranscript
        (Pipeline.generateTranscript env s L llm t1).2 s L llm t2).1 =
      (Pipeline.generateTranscript env s L llm t1).1 ∧
    (Pipeline.generateTranscript
        (Pipeline.generateTranscript env s L llm t1).2 s L llm t2).2 =
      (Pipeline.generateTranscript env s L llm t1).2 := by
  have e1 : Pipeline.generateTranscript env s L llm t1 =
      (llm s, ⟨env.cache.put (Pipeline.fingerprint s L) (llm s) t1,
        env.textCalls + 1⟩) := by
    simp only [Pipeline.generateTranscript, hmiss]
  have e2 : ((env.cache.put (Pipeline.fingerprint s L) (llm s) t1).get
      (Pipeline.fingerprint s L) t2).1 = some (llm s) := by
    rw [get_found _ _ ⟨llm s, t1 + Pipeline.CACHE_TTL⟩ _ (lookup_put _ _ _ _)]
    simp [h2]
  rw [e1]
  simp [Pipeline.generateTranscript, e2]

/-- Claim C5, witness: the cache idempotence at a concrete source text,
length and clock pair inside the TTL window. -/
theorem claim_C5_witness :
    (Pipeline.generateTranscript
        (Pipeline.generateTranscript envW "om" 5 (fun t => t ++ "!") 0).2
        "om" 5 (fun t => t ++ "!") 100).2.textCalls =
      (Pipeline.generateTranscript envW "om" 5 (fun t => t ++ "!") 0).2.textCalls ∧
    (Pipeline.generateTranscript
        (Pipeline.generateTranscript envW "om" 5 (fun t => t ++ "!") 0).2
        "om" 5 (fun t => t ++ "!") 100).1 =
      (Pipeline.generateTranscript envW "om" 5 (fun t => t ++ "!") 0).1 ∧
    (Pipeline.generateTranscript
        (Pipeline.generateTranscript envW "om" 5 (fun t => t ++ "!") 0).2
        "om" 5 (fun t => t ++ "!") 100).2 =
      (Pipeline.generateTranscript envW "om" 5 (fun t => t ++ "!") 0).2 :=
  claim_C5 envW "om" 5 (fun t => t ++ "!") 0 100 (by decide) (by decide) rfl

/-- Claim C6: a cache get performed once the expiry time of the entry has
passed behaves exactly as a miss, leaves the cache unchanged and does not
delete the entry; in particular an entry put at time t is missed at every
time from t + CACHE_TTL on while remaining stored. -/
theorem claim_C6 :
    (∀ (c : Pipeline.ContentCache) (k : String) (e : Pipeline.CacheEntry) (now : Nat),
        c.find k = some e → e.expires_at ≤ now →
        (c.get k now).1 = none ∧ (c.get k now).2 = c ∧
        (c.get k now).2.find k = some e) ∧
    (∀ (c : Pipeline.ContentCache) (k v : String) (t now : Nat),
        t + Pipeline.CACHE_TTL ≤ now →
        ((c.put k v t).get k now).1 = none ∧
        ((c.put k v t).get k now).2.find k = some ⟨v, t + Pipeline.CACHE_TTL⟩) := by
  constructor
  · intro c k e now hfind hexp
    have hlk : c.entries.lookup k = some e := hfind
    refine ⟨?_, get_preserves c k now, ?_⟩
    · rw [get_found c k e now hlk]
      have hlt : ¬ (now < e.expires_at) := by omega
      simp [hlt]
    · rw [get_preserves c k now]
      exact hfind
  · intro c k v t now h
    have hlk := lookup_put c k v t
    constructor
    · rw [get_found _ _ ⟨v, t + Pipeline.CACHE_TTL⟩ _ hlk]
      have hlt : ¬ (now < t + Pipeline.CACHE_TTL) := by omega
      simp [hlt]
    · rw [get_preserves]
      exact hlk

/-- Claim C6, witness: the expired read at a concrete cache whose single
entry expires at second 3600, read at second 4000. -/
theorem claim_C6_witness :
    (cacheW.get "k" 4000).1 = none ∧ (cacheW.get "k" 4000).2 = cacheW ∧
    (cacheW.get "k" 4000).2.find "k" = some ⟨"v", 3600⟩ :=
  claim_C6.1 cacheW "k" ⟨"v", 3600⟩ 4000 rfl (by decide)

set_option maxHeartbeats 800000 in
/-- Claim C7: in every run, TranscriptGenerator and ImageGenerator are
launched together — one is started exactly when the other is — and both
starts precede every completion or failure of either stage, so the two
stages overlap and image generation never blocks the transcript stage. -/
theorem claim_C7 (mode : ContentGen.Mode) (o : Pipeline.StageOutcomes) :
    (Pipeline.Event.start .transcript ∈ (Pipeline.runPipeline mode o).1 ↔
      Pipeline.Event.start .image ∈ (Pipeline.runPipeline mode o).1) ∧
    Pipeline.occursBefore (.start .transcript) (.finish .transcript)
      (Pipeline.runPipeline mode o).1 = true ∧
    Pipeline.occursBefore (.start .image) (.finish .transcript)
      (Pipeline.runPipeline mode o).1 = true ∧
    Pipeline.occursBefore (.start .transcript) (.fail .transcript)
      (Pipeline.runPipeline mode o).1 = true ∧
    Pipeline.occursBefore (.start .image) (.fail .transcript)
      (Pipeline.runPipeline mode o).1 = true ∧
    Pipeline.occursBefore (.start .transcript) (.finish .image)
      (Pipeline.runPipeline mode o).1 = true ∧
    Pipeline.occursBefore (.start .image) (.finish .image)
      (Pipeline.runPipeline mode o).1 = true ∧
    Pipeline.occursBefore (.start .transcript) (.fail .image)
      (Pipeline.runPipeline mode o).1 = true ∧
    Pipeline.occursBefore (.start .image) (.fail .image)
      (Pipeline.runPipeline mode o).1 = true := by
  obtain ⟨f, t, i, sp, e, u⟩ := o
  cases mode <;> cases f <;> cases t <;> cases i <;> cases sp <;> cases e <;> cases u <;>
    simp only [Pipeline.runPipeline, Pipeline.gatherEvents, Pipeline.uploadStep,
      List.cons_append, List.nil_append] <;>
    decide

/-- Claim C8, code bug: polling runs at a fixed 2000 ms interval, but the
stop condition of the code ignores the observed status — after a poll
observes the terminal status failed, shouldPoll is still true and the
client keeps polling, although the comment in the source says polling
stops when complete or failed.  After observing complete with a content
url, polling does stop. -/
theorem claim_C8 :
    Modal.pollIntervalMs = 2000 ∧
    Modal.shouldPoll stPolling = true ∧
    (Modal.pollTick stPolling recFailed).poll.status =
      some ContentGen.WireStatus.failed ∧
    (Modal.pollTick stPolling recFailed).poll.error =
      some "Content generation failed" ∧
    Modal.shouldPoll (Modal.pollTick stPolling recFailed) = true ∧
    Modal.shouldPoll (Modal.pollTick stPolling recComplete) = false := by
  decide

/-- Claim C9: a malformed generation request — unknown mode string or a
missing identifier — is rejected synchronously by CreateGeneration and
the status store is left exactly as it was: no record is created. -/
theorem claim_C9 (st : Orchestrator.Store) (r : Orchestrator.RawRequest)
    (newId createdAt : String)
    (h : Orchestrator.parseMode r.mode = none ∨
      r.conversation_id = "" ∨ r.message_id = "") :
    (∃ msg, (Orchestrator.createGeneration st r newId createdAt).1 = .error msg) ∧
    (Orchestrator.createGeneration st r newId createdAt).2 = st := by
  rcases h with h | h
  · simp only [Orchestrator.createGeneration, h]
    exact ⟨⟨_, rfl⟩, trivial⟩
  · cases hm : Orchestrator.parseMode r.mode
    · simp only [Orchestrator.createGeneration, hm]
      exact ⟨⟨_, rfl⟩, trivial⟩
    · simp only [Orchestrator.createGeneration, hm]
      rw [if_pos h]
      exact ⟨⟨_, rfl⟩, rfl⟩

/-- Claim C9, witness: the rejection at a concrete request whose mode
string gif is unknown, against the empty store. -/
theorem claim_C9_witness :
    (∃ msg, (Orchestrator.createGeneration store0 badReq "g9" "t0").1 = .error msg) ∧
    (Orchestrator.createGeneration store0 badReq "g9" "t0").2 = store0 :=
  claim_C9 store0 badReq "g9" "t0" (Or.inl (by decide))

/-- Claim C10: a generation passed to ContemplationModal is rendered as a
viewable card, and can be opened full screen through the card click path
into handleViewCard, only if its content_type is image, its status is
complete, and its content_url is non-null. -/
theorem claim_C10 (l : List ContentGen.ContentGeneration)
    (cg : ContentGen.ContentGeneration) :
    (cg ∈ Modal.completedCards l →
      cg.content_type = .image ∧ cg.status = .complete ∧ cg.content_url ≠ none) ∧
    (Modal.cardOpensFullScreen l cg = true →
      cg.content_type = .image ∧ cg.status = .complete ∧ cg.content_url ≠ none) := by
  have main : cg ∈ Modal.completedCards l →
      cg.content_type = .image ∧ cg.status = .complete ∧ cg.content_url ≠ none := by
    intro hmem
    simp only [Modal.completedCards] at hmem
    rw [List.mem_filter] at hmem
    obtain ⟨-, hp⟩ := hmem
    simp only [Bool.and_eq_true, beq_iff_eq] at hp
    obtain ⟨⟨hty, hst⟩, hurl⟩ := hp
    refine ⟨hty, hst, ?_⟩
    cases hcu : cg.content_url with
    | none => rw [hcu] at hurl; simp [ContentGen.truthy] at hurl
    | some sv => simp
  refine ⟨main, fun hopen => ?_⟩
  have hmem : cg ∈ Modal.completedCards l := by
    simp only [Modal.cardOpensFullScreen, Bool.and_eq_true, decide_eq_true_eq] at hopen
    exact hopen.1
  exact main hmem

/-- Claim C10, witness: the conditions hold of a concrete completed image
card rendered by the modal. -/
theorem claim_C10_witness :
    cardW.content_type = ContentGen.Mode.image ∧
    cardW.status = ContentGen.WireStatus.complete ∧ cardW.content_url ≠ none :=
  (claim_C10 [cardW] cardW).1 (by decide)
